import Mathlib

/-!
Verification development for the stock-analysis scoring and signal pipeline
(`plugins/stock-analysis/scripts`): a shallow embedding of the pattern
detector, signal scanner, trading-signal generator and scoring engine, with
theorems settling the specification's claims about them.

Modelling conventions:
* Python floats are embedded as rationals (`ℚ`); `round(x, n)` and numpy
  rounding use round-half-to-even, embedded as `roundHalfEven`/`round2`.
* A nullable numeric cell (pandas `NaN`) is `Option ℚ`; `pd.notna` is
  `Option.isSome`, and comparisons involving a missing value are `false`,
  matching IEEE NaN comparison semantics (`pyGt`, `pyLt`, `pyLe`, `pyGe`).
* Code that can raise an uncaught exception returns `Except String α`;
  the string stands for the exception type and message.
* The data provider (akshare wrapper) and the ta-lib indicator library are
  external collaborators, embedded as records of abstract functions
  (`Provider`, `TA`) that the repository's code consumes.
* Free-text presentation fields (`reason` strings and float formatting in
  report strings) are rendering-only and never read back by the code; the
  `reason` field of pattern/recommendation dicts is omitted from the
  embedding, and price zones are kept as exact rational pairs rather than
  their 2-decimal string rendering.
-/

section
attribute [local semireducible] Rat.add Rat.mul Rat.sub Rat.inv Rat.ofScientific

/-- Python/NaN comparison: `a > b`, false when either side is missing. -/
def pyGt (a b : Option ℚ) : Bool :=
  match a, b with
  | some x, some y => x > y
  | _, _ => false

/-- Python/NaN comparison: `a < b`, false when either side is missing. -/
def pyLt (a b : Option ℚ) : Bool :=
  match a, b with
  | some x, some y => x < y
  | _, _ => false

/-- Python/NaN comparison: `a <= b`, false when either side is missing. -/
def pyLe (a b : Option ℚ) : Bool :=
  match a, b with
  | some x, some y => x ≤ y
  | _, _ => false

/-- Python/NaN comparison: `a >= b`, false when either side is missing. -/
def pyGe (a b : Option ℚ) : Bool :=
  match a, b with
  | some x, some y => x ≥ y
  | _, _ => false

/-- Round-half-to-even to an integer, the tie-breaking rule used by Python's
built-in `round` and by numpy. -/
def roundHalfEven (q : ℚ) : ℤ :=
  let f := ⌊q⌋
  let frac := q - f
  if frac < 1/2 then f
  else if 1/2 < frac then f + 1
  else if f % 2 = 0 then f else f + 1

/-- Python `round(x, 2)`: round to the nearest multiple of 1/100, ties to
even. -/
def round2 (q : ℚ) : ℚ := (roundHalfEven (q * 100) : ℚ) / 100

/-- Python `%.0f`-style formatting of a float (used inside pattern labels):
round half to even, print the integer. -/
def fmt0 (q : ℚ) : String := toString (roundHalfEven q)

/-- The clamp `max(0, min(10, score))` applied to every score in the code. -/
def clamp010 (q : ℚ) : ℚ := max 0 (min 10 q)

/-- Python `min` over a list known by the caller to be non-empty (the code
guards every call with a truthiness check); the default for `[]` is never
reached in guarded call sites. -/
def listMin : List ℚ → ℚ
  | [] => 0
  | x :: xs => xs.foldl min x

/-- Python `max` over a list known by the caller to be non-empty. -/
def listMax : List ℚ → ℚ
  | [] => 0
  | x :: xs => xs.foldl max x

/-- One row of a (possibly indicator-augmented) candlestick DataFrame.
`open_`, `high`, `low` carry plain values (no code path in scope null-checks
them); `close`, `volume` and every derived indicator column are nullable. -/
structure Row where
  open_ : ℚ := 0
  high : ℚ := 0
  low : ℚ := 0
  close : Option ℚ := none
  volume : Option ℚ := none
  ma : ℕ → Option ℚ := fun _ => none
  rsi : Option ℚ := none
  macd : Option ℚ := none
  macdSignal : Option ℚ := none
  macdHist : Option ℚ := none
  bbUpper : Option ℚ := none
  bbMiddle : Option ℚ := none
  bbLower : Option ℚ := none
  atr : Option ℚ := none

instance : Inhabited Row := ⟨{}⟩

/-- A DataFrame: the list of column names (for the `in df.columns` checks)
together with the rows. -/
structure Frame where
  cols : List String := ["date", "open", "high", "low", "close", "volume", "turnover"]
  rows : List Row := []

/-- Row `df.iloc[-1]` of a frame (call sites guard non-emptiness). -/
def Frame.latest (f : Frame) : Row := f.rows.getLastD {}

/-- Row `df.iloc[-2]` of a frame (call sites guard `len >= 2`). -/
def Frame.prev (f : Frame) : Row := f.rows.getD (f.rows.length - 2) {}

/-- A pattern-event dict produced by the detector: its `type`, display name
and signed strength (the free-text `reason` field is rendering-only and
omitted). -/
structure Pattern where
  kind : String
  name : String
  strength : ℚ
deriving DecidableEq

/-- Quote snapshot returned by `get_stock_spot` (fields the pipeline reads;
numeric fields are null when the upstream cell is missing). -/
structure Spot where
  name : Option String := none
  price : Option ℚ := none
  changePct : Option ℚ := none

/-- Financial summary returned by `get_stock_financial_summary` (fields the
scoring engine reads). -/
structure Financial where
  pe : Option ℚ := none
  pb : Option ℚ := none

/-- The external data provider: each fetch either raises (`error`) or
returns data. -/
structure Provider where
  candles : String → Except String Frame
  spot : String → Except String Spot
  financial : String → Except String Financial

/-- The external ta-lib indicator functions consumed by
`_calculate_indicators` and `_detect_candlestick_patterns`; each returns a
column aligned 1:1 with the input rows (missing cells are `none`).
Candlestick detectors are keyed by their ta-lib function name and return an
integer signal column. -/
structure TA where
  MA : ℕ → List (Option ℚ) → List (Option ℚ)
  MACD : ℕ → ℕ → ℕ → List (Option ℚ) →
    List (Option ℚ) × List (Option ℚ) × List (Option ℚ)
  RSI : ℕ → List (Option ℚ) → List (Option ℚ)
  BBANDS : ℕ → ℚ → List (Option ℚ) →
    List (Option ℚ) × List (Option ℚ) × List (Option ℚ)
  ATR : List ℚ → List ℚ → List (Option ℚ) → List (Option ℚ)
  CDL : String → List ℚ → List ℚ → List ℚ → List (Option ℚ) → List ℤ

/-- PatternDetector configuration with the constructor's defaults. -/
structure DetCfg where
  maPeriods : List ℕ := [5, 10, 20, 60]
  macdFast : ℕ := 12
  macdSlow : ℕ := 26
  macdSignalP : ℕ := 9
  rsiPeriod : ℕ := 14
  rsiOversold : ℚ := 30
  rsiOverbought : ℚ := 70
  bollPeriod : ℕ := 20
  bollStd : ℚ := 2.0

/-- TradingSignalGenerator threshold configuration with defaults. -/
structure GenCfg where
  buyThreshold : ℚ := 7.0
  sellThreshold : ℚ := 3.0
  holdThreshold : ℚ := 5.0

/-- ScoringEngine technical weights with defaults. -/
structure TechW where
  trend : ℚ := 0.4
  momentum : ℚ := 0.3
  volume : ℚ := 0.3

/-- ScoringEngine fundamental weights with defaults. -/
structure FundW where
  valuation : ℚ := 0.3
  growth : ℚ := 0.4
  quality : ℚ := 0.3

/-- ScoringEngine overall weights with defaults. -/
structure OverallW where
  technical : ℚ := 0.6
  fundamental : ℚ := 0.4

/-- PatternDetector._calculate_indicators: extend the frame with the
ta-lib indicator columns (moving averages at the configured periods, the
MACD triple, RSI, Bollinger bands, ATR).  The indicator math itself is the
external library `ta`; output columns align 1:1 with the rows. -/
def calculate_indicators (ta : TA) (cfg : DetCfg) (f : Frame) : Frame :=
  let closes := f.rows.map Row.close
  let highs := f.rows.map Row.high
  let lows := f.rows.map Row.low
  let macdT := ta.MACD cfg.macdFast cfg.macdSlow cfg.macdSignalP closes
  let rsiCol := ta.RSI cfg.rsiPeriod closes
  let bbT := ta.BBANDS cfg.bollPeriod cfg.bollStd closes
  let atrCol := ta.ATR highs lows closes
  { cols := f.cols ++ cfg.maPeriods.map (fun p => "ma_" ++ toString p) ++
      ["macd", "macd_signal", "macd_hist", "rsi", "bb_upper", "bb_middle", "bb_lower", "atr"]
    rows := f.rows.mapIdx fun i r =>
      { r with
        ma := fun p =>
          if cfg.maPeriods.contains p then (ta.MA p closes).getD i none else r.ma p
        macd := macdT.1.getD i none
        macdSignal := macdT.2.1.getD i none
        macdHist := macdT.2.2.getD i none
        rsi := rsiCol.getD i none
        bbUpper := bbT.1.getD i none
        bbMiddle := bbT.2.1.getD i none
        bbLower := bbT.2.2.getD i none
        atr := atrCol.getD i none } }

/-- PatternDetector._detect_crosses: for each adjacent pair of configured
MA periods, emit a golden cross (+8) when the fast line moves from at most
the slow line to strictly above it, a death cross (-8) on the mirrored
move; likewise a MACD line/signal cross at strength 6, guarded by
non-null checks. -/
def detect_crosses (cfg : DetCfg) (f : Frame) : List Pattern :=
  if f.rows.length < 2 then []
  else
    let latest := f.latest
    let prev := f.prev
    let maCrosses :=
      (cfg.maPeriods.zip cfg.maPeriods.tail).map fun pr =>
        let fast := pr.1
        let slow := pr.2
        if ("ma_" ++ toString fast) ∈ f.cols ∧ ("ma_" ++ toString slow) ∈ f.cols then
          if pyLe (prev.ma fast) (prev.ma slow) ∧ pyGt (latest.ma fast) (latest.ma slow) then
            [⟨"golden_cross", "MA" ++ toString fast ++ "金叉MA" ++ toString slow, 8⟩]
          else if pyGe (prev.ma fast) (prev.ma slow) ∧ pyLt (latest.ma fast) (latest.ma slow) then
            [⟨"death_cross", "MA" ++ toString fast ++ "死叉MA" ++ toString slow, -8⟩]
          else []
        else []
    let macdCross :=
      if "macd" ∈ f.cols ∧ "macd_signal" ∈ f.cols ∧ latest.macd.isSome ∧
          latest.macdSignal.isSome ∧ prev.macd.isSome ∧ prev.macdSignal.isSome then
        if pyLe prev.macd prev.macdSignal ∧ pyGt latest.macd latest.macdSignal then
          [⟨"macd_golden_cross", "MACD金叉", 6⟩]
        else if pyGe prev.macd prev.macdSignal ∧ pyLt latest.macd latest.macdSignal then
          [⟨"macd_death_cross", "MACD死叉", -6⟩]
        else []
      else []
    maCrosses.flatten ++ macdCross

/-- PatternDetector._detect_overbought_oversold: RSI below the oversold cut
fires +7, above the overbought cut fires -7; a null RSI suppresses both. -/
def detect_overbought_oversold (cfg : DetCfg) (f : Frame) : List Pattern :=
  if f.rows.length < 2 ∨ "rsi" ∉ f.cols then []
  else
    match f.latest.rsi with
    | none => []
    | some r =>
      if r < cfg.rsiOversold then
        [⟨"rsi_oversold", "RSI超卖(" ++ fmt0 r ++ ")", 7⟩]
      else if r > cfg.rsiOverbought then
        [⟨"rsi_overbought", "RSI超买(" ++ fmt0 r ++ ")", -7⟩]
      else []

/-- PatternDetector._detect_breakout: a rising close on more than 1.5x the
previous volume fires +7 (previous volume 0 gives ratio 1); a close beyond
the Bollinger envelope fires +7 or -7. -/
def detect_breakout (f : Frame) : List Pattern :=
  if f.rows.length < 2 then []
  else
    let latest := f.latest
    let prev := f.prev
    let volumePart :=
      if "volume" ∈ f.cols ∧ latest.volume.isSome ∧ prev.volume.isSome then
        let lv := latest.volume.getD 0
        let pv := prev.volume.getD 0
        let vRatio := if pv > 0 then lv / pv else 1
        if pyGt latest.close prev.close ∧ vRatio > 1.5 then
          [⟨"volume_breakout", "放量突破", 7⟩]
        else []
      else []
    let bbPart :=
      if "bb_upper" ∈ f.cols ∧ "bb_lower" ∈ f.cols ∧ latest.bbUpper.isSome ∧
          latest.close.isSome then
        if pyGt latest.close latest.bbUpper then
          [⟨"bollinger_breakout_upper", "突破布林带上轨", 7⟩]
        else if pyLt latest.close latest.bbLower then
          [⟨"bollinger_breakout_lower", "跌破布林带下轨", -7⟩]
        else []
      else []
    volumePart ++ bbPart

/-- The fixed candlestick catalog of _detect_candlestick_patterns: type key
paired with the ta-lib function name with CDL stripped. -/
def cdlCatalog : List (String × String) :=
  [("doji", "DOJI"), ("hammer", "HAMMER"), ("morning_star", "MORNINGSTAR"),
   ("evening_star", "EVENINGSTAR"), ("engulfing", "ENGULFING")]

/-- PatternDetector._detect_candlestick_patterns: run each catalog function
over the OHLC arrays; a positive latest signal fires +5 bullish, a negative
one -5 bearish.  An empty library result (indexing the last element would
raise) is swallowed by the per-pattern exception handler. -/
def detect_candlestick_patterns (ta : TA) (f : Frame) : List Pattern :=
  if f.rows.length < 3 then []
  else
    let opens := f.rows.map Row.open_
    let highs := f.rows.map Row.high
    let lows := f.rows.map Row.low
    let closes := f.rows.map Row.close
    (cdlCatalog.map fun pr =>
      match (ta.CDL ("CDL" ++ pr.2) opens highs lows closes).getLast? with
      | none => []
      | some v =>
        if v ≠ 0 then
          if v > 0 then [⟨"bullish_" ++ pr.1, "看涨-" ++ pr.2, 5⟩]
          else [⟨"bearish_" ++ pr.1, "看跌-" ++ pr.2, -5⟩]
        else []).flatten

/-- PatternDetector.detect_patterns: augment the frame with indicators,
then run the four event scanners; a frame shorter than the largest
configured MA period yields no patterns. -/
def detect_patterns (ta : TA) (cfg : DetCfg) (df : Frame) : List Pattern :=
  let f := calculate_indicators ta cfg df
  if f.rows.isEmpty ∨ f.rows.length < cfg.maPeriods.getLastD 0 then []
  else
    detect_crosses cfg f ++ detect_overbought_oversold cfg f ++
      detect_breakout f ++ detect_candlestick_patterns ta f

/-- Python sorted(set(xs))[-3:]: the distinct values in ascending order,
keeping only the top three. -/
def top3Ascending (xs : List ℚ) : List ℚ :=
  let s := List.insertionSort (fun a b => a ≤ b) xs.dedup
  s.drop (s.length - 3)

/-- PatternDetector.get_support_resistance: over the trailing window,
support levels are sorted(set(round(low, 2)))[-3:] and resistance levels
are sorted(set(round(high, 2)))[-3:]; too little data yields empty
lists. -/
def get_support_resistance (df : Frame) (window : ℕ := 20) : List ℚ × List ℚ :=
  if df.rows.isEmpty ∨ df.rows.length < window then ([], [])
  else
    let recent := df.rows.drop (df.rows.length - window)
    let lows := recent.map Row.low
    let highs := recent.map Row.high
    (top3Ascending (lows.map round2), top3Ascending (highs.map round2))

/-- The successful scan dict built by SignalScanner.scan_stock. -/
structure ScanOk where
  symbol : String
  name : String
  price : Option ℚ
  changePct : Option ℚ
  patterns : List Pattern
  supportLevels : List ℚ
  resistanceLevels : List ℚ
deriving DecidableEq

/-- Result of SignalScanner.scan_stock: either the error dict
(symbol together with a message) or the scan payload. -/
inductive ScanResult where
  | err (symbol msg : String)
  | ok (r : ScanOk)
deriving DecidableEq

/-- SignalScanner.scan_stock: fetch candles and quote, detect patterns and
support/resistance.  Every exception inside (fetch failures included) is
caught and turned into the error dict; an empty candle frame yields the
no-data error dict. -/
def scan_stock (ta : TA) (cfg : DetCfg) (p : Provider) (symbol : String) : ScanResult :=
  match p.candles symbol with
  | .error e => .err symbol e
  | .ok df =>
    if df.rows.isEmpty then .err symbol "无法获取数据"
    else
      match p.spot symbol with
      | .error e => .err symbol e
      | .ok spot =>
        let patterns := detect_patterns ta cfg df
        let levels := get_support_resistance df 20
        .ok { symbol := symbol, name := spot.name.getD "", price := spot.price,
              changePct := spot.changePct, patterns := patterns,
              supportLevels := levels.1, resistanceLevels := levels.2 }

/-- A price zone as computed by _calculate_key_levels: the "-" sentinel or
a low-high pair (the code renders the pair with two decimals; the exact
values are kept here). -/
inductive Zone where
  | na
  | range (lo hi : ℚ)
deriving DecidableEq

/-- The stop-loss value: the "-" sentinel or a price. -/
inductive StopV where
  | na
  | px (v : ℚ)
deriving DecidableEq

/-- The key-levels dict. -/
structure KeyLevels where
  entryZone : Zone
  targetZone : Zone
  stopLoss : StopV
deriving DecidableEq

/-- TradingSignalGenerator._calculate_signal_score: 5.0 for an empty list,
otherwise 5.0 + (sum of strengths / 8) * 5 clamped to [0,10] and rounded
to two decimals. -/
def calculate_signal_score (signals : List Pattern) : ℚ :=
  if signals.isEmpty then 5.0
  else
    let totalStrength := (signals.map Pattern.strength).sum
    let score := 5.0 + totalStrength / 8 * 5
    round2 (clamp010 score)

/-- The recommendation dict: action and risk level (free-text reason
omitted). -/
structure Rec where
  action : String
  riskLevel : String
deriving DecidableEq

/-- TradingSignalGenerator._generate_recommendation: risk tier from the
counts of strongly negative/positive signals, action from the score
thresholds. -/
def generate_recommendation (cfg : GenCfg) (score : ℚ) (signals : List Pattern) : Rec :=
  let positives := signals.filter fun s => s.strength > 3
  let negatives := signals.filter fun s => s.strength < -3
  let riskLevel :=
    if ¬negatives.isEmpty then (if negatives.length ≥ 2 then "极高" else "高")
    else if ¬positives.isEmpty then "低"
    else "中"
  let action :=
    if score ≥ cfg.buyThreshold then "buy"
    else if score ≤ cfg.sellThreshold then "sell"
    else "hold"
  ⟨action, riskLevel⟩

/-- TradingSignalGenerator._calculate_key_levels.  A price of exactly 0
short-circuits to the "-" sentinels.  A null price (possible when the quote
snapshot's price cell is missing) is NOT short-circuited: the code falls
through and multiplies/renders None, raising an uncaught TypeError on
either branch of the support check. -/
def calculate_key_levels (price : Option ℚ) (support resistance : List ℚ) :
    Except String KeyLevels :=
  match price with
  | none => .error "TypeError: NoneType price in key levels"
  | some p =>
    if p = 0 then .ok ⟨.na, .na, .na⟩
    else
      let entryZone :=
        if ¬support.isEmpty then Zone.range (listMin support) p
        else Zone.range (p * 0.98) p
      let targetZone :=
        if ¬resistance.isEmpty then Zone.range p (listMax resistance)
        else Zone.range p (p * 1.1)
      let stopLoss :=
        if ¬support.isEmpty then StopV.px (listMin support * 0.97)
        else StopV.px (p * 0.95)
      .ok ⟨entryZone, targetZone, stopLoss⟩

/-- The per-stock signal record built by analyze_stock. -/
structure StockRec where
  symbol : String
  name : String
  price : Option ℚ
  changePct : Option ℚ
  signals : List Pattern
  overallScore : ℚ
  recommendation : String
  riskLevel : String
  entryZone : Zone
  targetZone : Zone
  stopLoss : StopV
deriving DecidableEq

/-- analyze_stock output: the scanner's error dict passed through, or the
signal record. -/
inductive AnalyzeOut where
  | errDict (symbol msg : String)
  | record (r : StockRec)
deriving DecidableEq

/-- TradingSignalGenerator.analyze_stock: scan, score, recommend, compute
key levels.  It installs no exception handler of its own, so a TypeError
raised inside _calculate_key_levels propagates to the caller. -/
def analyze_stock (ta : TA) (dc : DetCfg) (gc : GenCfg) (p : Provider)
    (symbol : String) : Except String AnalyzeOut :=
  match scan_stock ta dc p symbol with
  | .err s m => .ok (.errDict s m)
  | .ok sc =>
    let signals := sc.patterns
    let overallScore := calculate_signal_score signals
    let recmd := generate_recommendation gc overallScore signals
    match calculate_key_levels sc.price sc.supportLevels sc.resistanceLevels with
    | .error e => .error e
    | .ok kl =>
      .ok (.record
        { symbol := sc.symbol, name := sc.name, price := sc.price,
          changePct := sc.changePct, signals := signals,
          overallScore := overallScore, recommendation := recmd.action,
          riskLevel := recmd.riskLevel, entryZone := kl.entryZone,
          targetZone := kl.targetZone, stopLoss := kl.stopLoss })

/-- The partition loop of generate_group_signals: error dicts are skipped;
each record goes to the bucket named by its recommendation, anything that
is neither buy nor hold falling to sell. -/
def bucketize : List AnalyzeOut → List StockRec × List StockRec × List StockRec
  | [] => ([], [], [])
  | .errDict _ _ :: rest => bucketize rest
  | .record r :: rest =>
    let parts := bucketize rest
    if r.recommendation = "buy" then (r :: parts.1, parts.2.1, parts.2.2)
    else if r.recommendation = "hold" then (parts.1, r :: parts.2.1, parts.2.2)
    else (parts.1, parts.2.1, r :: parts.2.2)

/-- TradingSignalGenerator._generate_group_summary. -/
def generate_group_summary (buyL holdL sellL : List StockRec) : String :=
  let total := buyL.length + holdL.length + sellL.length
  if total = 0 then "暂无分析结果"
  else
    let buyRatio := (buyL.length : ℚ) / total * 100
    if buyRatio > 50 then "市场机会较多，" ++ toString buyL.length ++ "只股票建议关注"
    else if buyRatio > 30 then "市场温和偏多，" ++ toString buyL.length ++ "只股票值得关注"
    else if buyRatio > 10 then "市场分化明显，" ++ toString buyL.length ++ "只股票存在机会"
    else "市场整体偏弱，建议谨慎操作"

/-- The group signal dict. -/
structure GroupResult where
  buy : List StockRec
  hold : List StockRec
  sell : List StockRec
  summary : String
deriving DecidableEq

/-- The sequential per-symbol loop of generate_group_signals: analyze each
symbol in order; an uncaught exception from any symbol aborts the whole
loop, discarding the batch. -/
def analyze_all (ta : TA) (dc : DetCfg) (gc : GenCfg) (p : Provider) :
    List String → Except String (List AnalyzeOut)
  | [] => .ok []
  | s :: rest =>
    match analyze_stock ta dc gc p s with
    | .error e => .error e
    | .ok r =>
      match analyze_all ta dc gc p rest with
      | .error e => .error e
      | .ok rs => .ok (r :: rs)

/-- TradingSignalGenerator.generate_group_signals: analyze each symbol in
order (an uncaught per-symbol exception aborts the whole batch), skip
error dicts, partition by recommendation, sort buy descending and sell
ascending by overall score with Python's stable sort (insertion sort is
extensionally every stable sort), attach the summary. -/
def generate_group_signals (ta : TA) (dc : DetCfg) (gc : GenCfg) (p : Provider)
    (symbols : List String) : Except String GroupResult :=
  match analyze_all ta dc gc p symbols with
  | .error e => .error e
  | .ok results =>
    let parts := bucketize results
    let buyL := List.insertionSort (fun a b => b.overallScore ≤ a.overallScore) parts.1
    let sellL := List.insertionSort (fun a b => a.overallScore ≤ b.overallScore) parts.2.2
    .ok { buy := buyL, hold := parts.2.1, sell := sellL,
          summary := generate_group_summary buyL parts.2.1 sellL }

/-- Technical components dict (trend/momentum/volume). -/
structure TechComponents where
  trend : ℚ
  momentum : ℚ
  volume : ℚ
deriving DecidableEq

/-- A technical score result: overall score plus the components dict
(`none` models the empty dict). -/
structure TechScore where
  score : ℚ
  components : Option TechComponents
deriving DecidableEq

/-- ScoringEngine._calculate_trend_score: base 5.0; +1.0 when ma_5 is above
ma_20 and -1.0 when it is not (both non-null and both columns present);
+0.5 when the close sits above ma_20; +0.5 when the close rose over the
trailing 10 bars; clamped to [0,10].  Fewer than 20 rows gives 5.0. -/
def calculate_trend_score (f : Frame) : ℚ :=
  if f.rows.length < 20 then 5.0
  else
    let latest := f.latest
    let s1 :=
      if "ma_5" ∈ f.cols ∧ "ma_20" ∈ f.cols then
        if (latest.ma 5).isSome ∧ (latest.ma 20).isSome then
          if pyGt (latest.ma 5) (latest.ma 20) then (1 : ℚ) else -1
        else 0
      else 0
    let s2 :=
      if "ma_20" ∈ f.cols then
        if latest.close.isSome ∧ (latest.ma 20).isSome then
          if pyGt latest.close (latest.ma 20) then (0.5 : ℚ) else 0
        else 0
      else 0
    let recent := f.rows.drop (f.rows.length - 10)
    let s3 :=
      if recent.length ≥ 2 then
        if pyGt (recent.getLastD {}).close (recent.headD {}).close then (0.5 : ℚ) else 0
      else 0
    clamp010 (5.0 + s1 + s2 + s3)

/-- ScoringEngine._calculate_momentum_score: base 5.0 plus the RSI band
delta and the MACD-histogram sign delta, clamped.  Fewer than 20 rows gives
5.0. -/
def calculate_momentum_score (f : Frame) : ℚ :=
  if f.rows.length < 20 then 5.0
  else
    let latest := f.latest
    let sRsi :=
      if "rsi" ∈ f.cols then
        match latest.rsi with
        | none => 0
        | some r =>
          if 40 ≤ r ∧ r ≤ 60 then (1 : ℚ)
          else if 30 ≤ r ∧ r < 40 then 0.5
          else if 60 < r ∧ r ≤ 70 then 0.5
          else if r < 30 then 1
          else if r > 70 then -1
          else 0
      else 0
    let sMacd :=
      if "macd_hist" ∈ f.cols then
        match latest.macdHist with
        | none => 0
        | some h => if h > 0 then (0.5 : ℚ) else -0.5
      else 0
    clamp010 (5.0 + sRsi + sMacd)

/-- ScoringEngine._calculate_volume_score: base 5.0 plus the price/volume
quadrant delta over the last two bars, clamped.  The previous-volume-zero
guard sets the volume change to 0; fewer than 20 rows gives 5.0.  (The
price-change division is a numpy float division: a zero previous close
yields inf/nan, not an exception; claims engage only a nonzero previous
close, where the rational quotient is exact.) -/
def calculate_volume_score (f : Frame) : ℚ :=
  if f.rows.length < 20 then 5.0
  else
    let latest := f.latest
    let prev := f.prev
    let adj :=
      match latest.close, prev.close, latest.volume, prev.volume with
      | some lc, some pc, some lv, some pv =>
        let priceChange := (lc - pc) / pc
        let volumeChange := if pv > 0 then (lv - pv) / pv else 0
        if priceChange > 0 ∧ volumeChange > 0 then (1.5 : ℚ)
        else if priceChange < 0 ∧ volumeChange < 0 then -0.5
        else if priceChange > 0 ∧ volumeChange < 0 then 0.5
        else if priceChange < 0 ∧ volumeChange > 0 then -1
        else 0
      | _, _, _, _ => 0
    clamp010 (5.0 + adj)

/-- ScoringEngine.calculate_technical_score: fetch candles for the symbol;
on a fetch failure or an empty frame return base 5.0 with the empty
components dict, otherwise the weighted sum of the three sub-scores with
each value rounded to two decimals. -/
def calculate_technical_score (w : TechW) (p : Provider) (symbol : String) : TechScore :=
  match p.candles symbol with
  | .error _ => ⟨5.0, none⟩
  | .ok df =>
    if df.rows.isEmpty then ⟨5.0, none⟩
    else
      let t := calculate_trend_score df
      let m := calculate_momentum_score df
      let v := calculate_volume_score df
      let overall := t * w.trend + m * w.momentum + v * w.volume
      ⟨round2 overall, some ⟨round2 t, round2 m, round2 v⟩⟩

/-- Fundamental components dict (valuation/growth/quality). -/
structure FundComponents where
  valuation : ℚ
  growth : ℚ
  quality : ℚ
deriving DecidableEq

/-- A fundamental score result. -/
structure FundScore where
  score : ℚ
  components : Option FundComponents
deriving DecidableEq

/-- ScoringEngine._calculate_valuation_score: base 5.0 plus the PE and PB
band deltas, clamped. -/
def calculate_valuation_score (fin : Financial) : ℚ :=
  let sPe :=
    match fin.pe with
    | none => 0
    | some pe => if pe < 15 then (2 : ℚ) else if pe < 30 then 1 else if pe > 50 then -1 else 0
  let sPb :=
    match fin.pb with
    | none => 0
    | some pb => if pb < 1.5 then (1 : ℚ) else if pb < 3 then 0.5 else if pb > 5 then -1 else 0
  clamp010 (5.0 + sPe + sPb)

/-- ScoringEngine._calculate_growth_score: a fixed neutral placeholder. -/
def calculate_growth_score (_fin : Financial) : ℚ := 5.0

/-- ScoringEngine._calculate_quality_score: a fixed neutral placeholder. -/
def calculate_quality_score (_fin : Financial) : ℚ := 5.0

/-- ScoringEngine.calculate_fundamental_score: on a fetch failure return
base 5.0 with the empty components dict, otherwise the weighted sum of
valuation/growth/quality. -/
def calculate_fundamental_score (w : FundW) (p : Provider) (symbol : String) : FundScore :=
  match p.financial symbol with
  | .error _ => ⟨5.0, none⟩
  | .ok fin =>
    let v := calculate_valuation_score fin
    let g := calculate_growth_score fin
    let q := calculate_quality_score fin
    let overall := v * w.valuation + g * w.growth + q * w.quality
    ⟨round2 overall, some ⟨round2 v, round2 g, round2 q⟩⟩

/-- The overall score dict. -/
structure OverallScore where
  overallScore : ℚ
  technicalScore : ℚ
  fundamentalScore : ℚ
deriving DecidableEq

/-- ScoringEngine.calculate_overall_score: take the given technical and
fundamental scores (computing whichever was not supplied) and combine them
with the overall weights. -/
def calculate_overall_score (tw : TechW) (fw : FundW) (ow : OverallW)
    (p : Provider) (symbol : String)
    (technicalScore fundamentalScore : Option ℚ := none) : OverallScore :=
  let ts := technicalScore.getD (calculate_technical_score tw p symbol).score
  let fs := fundamentalScore.getD (calculate_fundamental_score fw p symbol).score
  let overall := ts * ow.technical + fs * ow.fundamental
  ⟨round2 overall, round2 ts, round2 fs⟩

/-- Default PatternDetector configuration. -/
def defaultDet : DetCfg := {}

/-- Default TradingSignalGenerator thresholds. -/
def defaultGen : GenCfg := {}

/-- Default technical weights. -/
def defaultTechW : TechW := {}

/-- Default fundamental weights. -/
def defaultFundW : FundW := {}

/-- Default overall weights. -/
def defaultOverallW : OverallW := {}

/-- The signal-score formula exactly as claim C2 words it: 5.0 plus (sum of
pattern strengths / 8) times 5 clamped to [0,10], exactly 5.0 for the empty
list, with no rounding step. -/
def claimedSignalScore (signals : List Pattern) : ℚ :=
  if signals.isEmpty then 5.0
  else clamp010 (5.0 + (signals.map Pattern.strength).sum / 8 * 5)

/-- The trend sub-score exactly as claim C4 words it: base 5.0 adjusted by
only the three claimed deltas (+1.0 fastest MA above the next with both
non-null, +0.5 close above MA20, +0.5 ten-bar rise), clamped. -/
def claimedTrendScore (f : Frame) : ℚ :=
  let latest := f.latest
  let d1 :=
    if (latest.ma 5).isSome ∧ (latest.ma 20).isSome ∧ pyGt (latest.ma 5) (latest.ma 20)
    then (1 : ℚ) else 0
  let d2 := if pyGt latest.close (latest.ma 20) then (0.5 : ℚ) else 0
  let recent := f.rows.drop (f.rows.length - 10)
  let d3 := if pyGt (recent.getLastD {}).close (recent.headD {}).close then (0.5 : ℚ) else 0
  clamp010 (5.0 + d1 + d2 + d3)

/-- Claim C4 amended: the claim's trend formula extended with the -1.0
delta the code applies when both MAs are non-null and the fast one is not
above the slow one. -/
def amendedTrendScore (f : Frame) : ℚ :=
  let latest := f.latest
  let d1 :=
    match latest.ma 5, latest.ma 20 with
    | some a, some b => if a > b then (1 : ℚ) else -1
    | _, _ => 0
  let d2 := if pyGt latest.close (latest.ma 20) then (0.5 : ℚ) else 0
  let recent := f.rows.drop (f.rows.length - 10)
  let d3 := if pyGt (recent.getLastD {}).close (recent.headD {}).close then (0.5 : ℚ) else 0
  clamp010 (5.0 + d1 + d2 + d3)

/-- A ta-lib stand-in whose indicator columns are all-null and whose
candlestick calls return the empty array (whose last-element access the
per-pattern handler then swallows). -/
def taNone : TA where
  MA := fun _ closes => closes.map fun _ => none
  MACD := fun _ _ _ closes =>
    (closes.map fun _ => none, closes.map fun _ => none, closes.map fun _ => none)
  RSI := fun _ closes => closes.map fun _ => none
  BBANDS := fun _ _ closes =>
    (closes.map fun _ => none, closes.map fun _ => none, closes.map fun _ => none)
  ATR := fun _ _ closes => closes.map fun _ => none
  CDL := fun _ _ _ _ _ => []

/-- A plain OHLCV row. -/
def bar (o h l c v : ℚ) : Row :=
  { open_ := o, high := h, low := l, close := some c, volume := some v }

/-- A two-bar candle frame. -/
def twoBars : Frame := { rows := [bar 10 11 9 10 100, bar 10 11 9 10 100] }

/-- A quote snapshot whose price cell is missing upstream (pd.notna false),
as the provider produces for e.g. a suspended stock. -/
def spotNullPrice : Spot := { name := some "甲", price := none, changePct := some 1 }

/-- A healthy quote snapshot. -/
def spotB : Spot := { name := some "乙", price := some 10, changePct := some 1 }

/-- Provider for claim C1's failing input: candles are fine for every
symbol, but symbol A's quote has a null price. -/
def provNullPrice : Provider where
  candles := fun _ => .ok twoBars
  spot := fun s => if s = "A" then .ok spotNullPrice else .ok spotB
  financial := fun _ => .error "获取财务摘要失败"

/-- Provider where symbol E fails to fetch candles and every other symbol
is healthy. -/
def provMix : Provider where
  candles := fun s => if s = "E" then .error "获取 K线数据失败" else .ok twoBars
  spot := fun _ => .ok spotB
  financial := fun _ => .error "获取财务摘要失败"

/-- The signal record analyze_stock builds for symbol B against taNone and
a healthy quote at price 10 (no patterns, neutral score, hold). -/
def recB : StockRec :=
  { symbol := "B", name := "乙", price := some 10, changePct := some 1, signals := [],
    overallScore := 5, recommendation := "hold", riskLevel := "中",
    entryZone := .range 9.8 10, targetZone := .range 10 11, stopLoss := .px 9.5 }

/-- The group result for the single healthy symbol B. -/
def groupOnlyB : GroupResult :=
  { buy := [], hold := [recB], sell := [], summary := "市场整体偏弱，建议谨慎操作" }


theorem clamp010_nonneg (q : ℚ) : 0 ≤ clamp010 q := le_max_left 0 _

theorem clamp010_le_ten (q : ℚ) : clamp010 q ≤ 10 :=
  max_le (by norm_num) (min_le_left _ _)

theorem floor_le_roundHalfEven (q : ℚ) : ⌊q⌋ ≤ roundHalfEven q := by
  simp only [roundHalfEven]
  split_ifs <;> omega

theorem roundHalfEven_le_ceil (q : ℚ) : roundHalfEven q ≤ ⌈q⌉ := by
  simp only [roundHalfEven]
  have h0 : ⌊q⌋ ≤ ⌈q⌉ := Int.floor_le_ceil q
  have hfl : (⌊q⌋ : ℚ) ≤ q := Int.floor_le q
  split_ifs with h1 h2 h3
  · exact h0
  · exact Int.add_one_le_ceil_iff.mpr (by linarith)
  · exact h0
  · exact Int.add_one_le_ceil_iff.mpr (by linarith)

theorem round2_nonneg {q : ℚ} (h : 0 ≤ q) : 0 ≤ round2 q := by
  unfold round2
  have h1 : (0 : ℤ) ≤ ⌊q * 100⌋ := Int.floor_nonneg.mpr (by positivity)
  have h2 : (0 : ℤ) ≤ roundHalfEven (q * 100) := h1.trans (floor_le_roundHalfEven _)
  have h3 : (0 : ℚ) ≤ (roundHalfEven (q * 100) : ℚ) := by exact_mod_cast h2
  positivity

theorem round2_le_ten {q : ℚ} (h : q ≤ 10) : round2 q ≤ 10 := by
  unfold round2
  have h1 : ⌈q * 100⌉ ≤ 1000 := Int.ceil_le.mpr (by push_cast; linarith)
  have h2 : roundHalfEven (q * 100) ≤ 1000 := (roundHalfEven_le_ceil _).trans h1
  have h3 : (roundHalfEven (q * 100) : ℚ) ≤ 1000 := by exact_mod_cast h2
  linarith

/-- C1: the claim says generate_group_signals never raises and swallows
every per-symbol failure (missing data, fetch errors, null quote fields),
omitting only the failed symbol.  On the failing input below, symbol A's
quote snapshot carries a null price; _calculate_key_levels then raises an
uncaught TypeError that aborts the whole batch, although symbol B on its
own would have been scored into the hold bucket. -/
theorem c1_null_price_aborts_batch :
    generate_group_signals taNone defaultDet defaultGen provNullPrice ["A", "B"] =
      .error "TypeError: NoneType price in key levels" ∧
    generate_group_signals taNone defaultDet defaultGen provNullPrice ["B"] =
      .ok groupOnlyB :=
  ⟨rfl, rfl⟩

/-- The rsi_oversold pattern at strength 7, claim C2's counterexample
input. -/
def oversold25 : Pattern := ⟨"rsi_oversold", "RSI超卖(25)", 7⟩

/-- C2 counterexample: the claim asserts the score equals the clamped
formula 5.0 + (sum/8) x 5 with no rounding; on the single-pattern list of
strength 7 the code returns 9.38 (rounded to two decimals) while the
claim's formula gives 9.375. -/
theorem c2_score_rounding_counterexample :
    calculate_signal_score [oversold25] = 9.38 ∧
    claimedSignalScore [oversold25] = 9.375 ∧
    calculate_signal_score [oversold25] ≠ claimedSignalScore [oversold25] :=
  ⟨by decide, by decide, by decide⟩

/-- The action component of _generate_recommendation is the bare
threshold if-chain. -/
theorem rec_action_eq (gc : GenCfg) (score : ℚ) (signals : List Pattern) :
    (generate_recommendation gc score signals).action =
      if score ≥ gc.buyThreshold then "buy"
      else if score ≤ gc.sellThreshold then "sell" else "hold" := rfl

/-- C2 amended: the score is the claim's clamped formula rounded to two
decimals (half-to-even), exactly 5.0 for the empty list; under default
thresholds the recommendation is buy iff score >= 7.0, sell iff
score <= 3.0, else hold; and the three concrete instances of the claim
hold: strengths summing to +40 give 10.0 and buy, to -40 give 0.0 and
sell, and the empty list gives 5.0 and hold. -/
theorem c2_signal_score_thresholds :
    (∀ signals : List Pattern,
      calculate_signal_score signals = round2 (claimedSignalScore signals)) ∧
    (∀ (score : ℚ) (signals : List Pattern),
      ((generate_recommendation defaultGen score signals).action = "buy" ↔ 7.0 ≤ score) ∧
      ((generate_recommendation defaultGen score signals).action = "sell" ↔ score ≤ 3.0) ∧
      ((generate_recommendation defaultGen score signals).action = "hold" ↔
        3.0 < score ∧ score < 7.0)) ∧
    (calculate_signal_score (List.replicate 5 ⟨"golden_cross", "MA5金叉MA10", (8 : ℚ)⟩) = 10 ∧
      (generate_recommendation defaultGen
        (calculate_signal_score (List.replicate 5 ⟨"golden_cross", "MA5金叉MA10", (8 : ℚ)⟩))
        (List.replicate 5 ⟨"golden_cross", "MA5金叉MA10", (8 : ℚ)⟩)).action = "buy") ∧
    (calculate_signal_score (List.replicate 5 ⟨"death_cross", "MA5死叉MA10", (-8 : ℚ)⟩) = 0 ∧
      (generate_recommendation defaultGen
        (calculate_signal_score (List.replicate 5 ⟨"death_cross", "MA5死叉MA10", (-8 : ℚ)⟩))
        (List.replicate 5 ⟨"death_cross", "MA5死叉MA10", (-8 : ℚ)⟩)).action = "sell") ∧
    (calculate_signal_score [] = 5.0 ∧
      (generate_recommendation defaultGen (calculate_signal_score []) []).action = "hold") := by
  refine ⟨?_, ?_, ⟨by decide, by decide⟩, ⟨by decide, by decide⟩, ⟨by decide, by decide⟩⟩
  · intro signals
    unfold calculate_signal_score claimedSignalScore
    by_cases h : signals.isEmpty
    · simp [h]
      decide
    · simp [h]
  · intro score signals
    rw [rec_action_eq]
    have hb : defaultGen.buyThreshold = 7.0 := rfl
    have hs : defaultGen.sellThreshold = 3.0 := rfl
    rw [hb, hs]
    split_ifs with h7 h3
    · exact ⟨⟨fun _ => h7, fun _ => rfl⟩,
        ⟨fun h => absurd h (by decide), fun h3 => ((by linarith : False)).elim⟩,
        ⟨fun h => absurd h (by decide), fun h37 => ((by linarith [h37.2] : False)).elim⟩⟩
    · exact ⟨⟨fun h => absurd h (by decide), fun h7 => ((by linarith : False)).elim⟩,
        ⟨fun _ => h3, fun _ => rfl⟩,
        ⟨fun h => absurd h (by decide), fun h37 => ((by linarith [h37.1] : False)).elim⟩⟩
    · exact ⟨⟨fun h => absurd h (by decide), fun h7le => ((by linarith : False)).elim⟩,
        ⟨fun h => absurd h (by decide), fun h3le => ((by linarith : False)).elim⟩,
        ⟨fun _ => ⟨by linarith, by linarith⟩, fun _ => rfl⟩⟩

/-- A one-bar frame (insufficient data but not empty). -/
def oneBarFrame : Frame := { rows := [bar 1 2 1 1 100] }

/-- Provider serving a single bar of candle data. -/
def provOneBar : Provider where
  candles := fun _ => .ok oneBarFrame
  spot := fun _ => .ok spotB
  financial := fun _ => .error "获取财务摘要失败"

/-- C5 counterexample: the claim asserts that fewer than 20 bars yields
score 5.0 together with an EMPTY components mapping; with one bar the code
does return 5.0 but the components dict holds trend/momentum/volume = 5.0,
so it is not empty. -/
theorem c5_components_counterexample :
    calculate_technical_score defaultTechW provOneBar "X" =
      ⟨5, some ⟨5, 5, 5⟩⟩ ∧
    (calculate_technical_score defaultTechW provOneBar "X").components ≠ none :=
  ⟨by decide, by decide⟩

/-- C5 amended: with default weights, a candle-fetch failure or an empty
frame yields score 5.0 with the empty components dict; a non-empty frame
with fewer than 20 bars yields score 5.0 with components
trend = momentum = volume = 5.0 (a non-empty dict). -/
theorem c5_insufficient_data_neutral (p : Provider) (sym : String) :
    (∀ e, p.candles sym = .error e →
      calculate_technical_score defaultTechW p sym = ⟨5.0, none⟩) ∧
    (∀ df, p.candles sym = .ok df → df.rows = [] →
      calculate_technical_score defaultTechW p sym = ⟨5.0, none⟩) ∧
    (∀ df, p.candles sym = .ok df → df.rows ≠ [] → df.rows.length < 20 →
      calculate_technical_score defaultTechW p sym = ⟨5.0, some ⟨5.0, 5.0, 5.0⟩⟩) := by
  refine ⟨fun e he => ?_, fun df hdf hemp => ?_, fun df hdf hne hlen => ?_⟩
  · unfold calculate_technical_score
    rw [he]
  · unfold calculate_technical_score
    rw [hdf]
    simp [hemp]
  · unfold calculate_technical_score
    rw [hdf]
    dsimp only
    rw [if_neg (by simpa [List.isEmpty_iff] using hne)]
    unfold calculate_trend_score calculate_momentum_score calculate_volume_score
    rw [if_pos hlen, if_pos hlen, if_pos hlen]
    decide

/-- C5 witness: the amended statement evaluated on the one-bar provider. -/
theorem c5_witness :
    calculate_technical_score defaultTechW provOneBar "X" = ⟨5.0, some ⟨5.0, 5.0, 5.0⟩⟩ :=
  (c5_insufficient_data_neutral provOneBar "X").2.2 oneBarFrame rfl
    (by simp [oneBarFrame]) (by simp [oneBarFrame])

/-- C7: for a nonzero price the entry zone is [min(support), price] when
support levels exist, else [0.98 price, price]; the target zone is
[price, max(resistance)] when resistance levels exist, else
[price, 1.1 price]; the stop-loss is 0.97 min(support) when support
exists, else 0.95 price.  A price of exactly 0 short-circuits all three to
the "-" sentinel without raising. -/
theorem c7_key_levels (p : ℚ) (support resistance : List ℚ) :
    (p ≠ 0 →
      calculate_key_levels (some p) support resistance = .ok
        { entryZone :=
            if ¬support.isEmpty then Zone.range (listMin support) p
            else Zone.range (p * 0.98) p,
          targetZone :=
            if ¬resistance.isEmpty then Zone.range p (listMax resistance)
            else Zone.range p (p * 1.1),
          stopLoss :=
            if ¬support.isEmpty then StopV.px (listMin support * 0.97)
            else StopV.px (p * 0.95) }) ∧
    calculate_key_levels (some 0) support resistance = .ok ⟨.na, .na, .na⟩ := by
  constructor
  · intro hp
    unfold calculate_key_levels
    dsimp only
    rw [if_neg hp]
  · rfl

/-- C7 witness: the key levels at price 10 with support [9] and
resistance [11]. -/
theorem c7_witness :
    calculate_key_levels (some 10) [9] [11] = .ok
      { entryZone :=
          if ¬([9] : List ℚ).isEmpty then Zone.range (listMin [9]) 10
          else Zone.range (10 * 0.98) 10,
        targetZone :=
          if ¬([11] : List ℚ).isEmpty then Zone.range 10 (listMax [11])
          else Zone.range 10 (10 * 1.1),
        stopLoss :=
          if ¬([9] : List ℚ).isEmpty then StopV.px (listMin [9] * 0.97)
          else StopV.px (10 * 0.95) } :=
  (c7_key_levels 10 [9] [11]).1 (by norm_num)

/-- C10: when the frame has at least 20 rows, the last two bars carry
non-null closes and volumes, the previous close is nonzero and the
previous volume is exactly 0, the volume sub-score is exactly 5.0: the
zero-previous-volume guard sets the volume change to 0, so none of the
four price/volume quadrant deltas applies (and the guarded division
raises nothing). -/
theorem c10_zero_prev_volume_neutral (f : Frame) (lc pc lv : ℚ)
    (hlen : 20 ≤ f.rows.length)
    (hlc : f.latest.close = some lc) (hpc : f.prev.close = some pc)
    (hlv : f.latest.volume = some lv) (hpv : f.prev.volume = some 0)
    (_hpc0 : pc ≠ 0) :
    calculate_volume_score f = 5.0 := by
  unfold calculate_volume_score
  rw [if_neg (by omega)]
  simp only [hlc, hpc, hlv, hpv, gt_iff_lt, lt_self_iff_false, if_false, and_false, false_and,
    if_neg, not_false_iff]
  norm_num [clamp010]

/-- A 20-row frame whose second-to-last bar has volume 0. -/
def zeroPrevVolFrame : Frame :=
  { rows := List.replicate 18 (bar 1 2 1 2 50) ++ [bar 1 2 1 2 0, bar 1 2 1 3 5] }

/-- C10 witness: the zero-previous-volume frame scores exactly 5.0. -/
theorem c10_witness : calculate_volume_score zeroPrevVolFrame = 5.0 :=
  c10_zero_prev_volume_neutral zeroPrevVolFrame 3 2 5 (by decide) (by decide) (by decide)
    (by decide) (by decide) (by norm_num)

/-- A 20-row indicator frame whose latest ma_5 sits below ma_20 with flat
closes: claim C4's counterexample input. -/
def trendFrame : Frame :=
  { cols := ["close", "ma_5", "ma_20"],
    rows := List.replicate 19 ({ close := some 5 } : Row) ++
      [{ close := some 5,
         ma := fun p => if p = 5 then some 1 else if p = 20 then some 6 else none }] }

/-- C4 counterexample: the claim lists only the three positive deltas and
says there are no other adjustments; on a frame with ma_5 below ma_20 the
code also subtracts 1.0 (score 4.0), while the claim's formula gives
5.0. -/
theorem c4_counterexample :
    calculate_trend_score trendFrame = 4 ∧
    claimedTrendScore trendFrame = 5 ∧
    calculate_trend_score trendFrame ≠ claimedTrendScore trendFrame :=
  ⟨by decide, by decide, by decide⟩

/-- C4 amended: on frames of at least 20 rows carrying the ma_5 and ma_20
columns, the trend sub-score is base 5.0 adjusted by exactly these deltas,
clamped to [0,10]: +1.0 if ma_5 is above ma_20 and -1.0 if it is not (both
non-null), +0.5 if the close is above ma_20, +0.5 if the close rose over
the trailing 10 bars. -/
theorem c4_trend_score_deltas (f : Frame)
    (hlen : 20 ≤ f.rows.length) (h5 : "ma_5" ∈ f.cols) (h20 : "ma_20" ∈ f.cols) :
    calculate_trend_score f = amendedTrendScore f := by
  have hr2 : (f.rows.drop (f.rows.length - 10)).length ≥ 2 := by
    rw [List.length_drop]; omega
  unfold calculate_trend_score amendedTrendScore
  rw [if_neg (by omega)]
  dsimp only
  rw [if_pos ⟨h5, h20⟩, if_pos h20, if_pos hr2]
  congr 1
  have hs1 :
      (if (f.latest.ma 5).isSome ∧ (f.latest.ma 20).isSome then
        if pyGt (f.latest.ma 5) (f.latest.ma 20) then (1 : ℚ) else -1
      else 0) =
      (match f.latest.ma 5, f.latest.ma 20 with
        | some a, some b => if a > b then (1 : ℚ) else -1
        | _, _ => 0) := by
    cases f.latest.ma 5 <;> cases f.latest.ma 20 <;> simp [pyGt]
  have hs2 :
      (if f.latest.close.isSome ∧ (f.latest.ma 20).isSome then
        if pyGt f.latest.close (f.latest.ma 20) then (0.5 : ℚ) else 0
      else 0) =
      (if pyGt f.latest.close (f.latest.ma 20) then (0.5 : ℚ) else 0) := by
    cases f.latest.close <;> cases f.latest.ma 20 <;> simp [pyGt]
  rw [hs1, hs2]

/-- C4 witness: the amended trend formula evaluated on the counterexample
frame. -/
theorem c4_witness : calculate_trend_score trendFrame = amendedTrendScore trendFrame :=
  c4_trend_score_deltas trendFrame (by decide) (by decide) (by decide)

theorem trend_score_bounds (f : Frame) :
    0 ≤ calculate_trend_score f ∧ calculate_trend_score f ≤ 10 := by
  unfold calculate_trend_score
  by_cases h : f.rows.length < 20
  · rw [if_pos h]; norm_num
  · rw [if_neg h]; exact ⟨clamp010_nonneg _, clamp010_le_ten _⟩

theorem momentum_score_bounds (f : Frame) :
    0 ≤ calculate_momentum_score f ∧ calculate_momentum_score f ≤ 10 := by
  unfold calculate_momentum_score
  by_cases h : f.rows.length < 20
  · rw [if_pos h]; norm_num
  · rw [if_neg h]; exact ⟨clamp010_nonneg _, clamp010_le_ten _⟩

theorem volume_score_bounds (f : Frame) :
    0 ≤ calculate_volume_score f ∧ calculate_volume_score f ≤ 10 := by
  unfold calculate_volume_score
  by_cases h : f.rows.length < 20
  · rw [if_pos h]; norm_num
  · rw [if_neg h]; exact ⟨clamp010_nonneg _, clamp010_le_ten _⟩

theorem valuation_score_bounds (fin : Financial) :
    0 ≤ calculate_valuation_score fin ∧ calculate_valuation_score fin ≤ 10 :=
  ⟨clamp010_nonneg _, clamp010_le_ten _⟩

theorem technical_score_bounds (p : Provider) (sym : String) :
    0 ≤ (calculate_technical_score defaultTechW p sym).score ∧
      (calculate_technical_score defaultTechW p sym).score ≤ 10 := by
  unfold calculate_technical_score
  cases hc : p.candles sym with
  | error e => dsimp only; norm_num
  | ok df =>
    dsimp only
    by_cases h : df.rows.isEmpty
    · rw [if_pos h]; norm_num
    · rw [if_neg h]
      obtain ⟨t0, t10⟩ := trend_score_bounds df
      obtain ⟨m0, m10⟩ := momentum_score_bounds df
      obtain ⟨v0, v10⟩ := volume_score_bounds df
      have e : defaultTechW = ⟨0.4, 0.3, 0.3⟩ := rfl
      rw [e]
      dsimp only
      exact ⟨round2_nonneg (by nlinarith), round2_le_ten (by nlinarith)⟩

theorem fundamental_score_bounds (p : Provider) (sym : String) :
    0 ≤ (calculate_fundamental_score defaultFundW p sym).score ∧
      (calculate_fundamental_score defaultFundW p sym).score ≤ 10 := by
  unfold calculate_fundamental_score
  cases hc : p.financial sym with
  | error e => dsimp only; norm_num
  | ok fin =>
    dsimp only
    obtain ⟨v0, v10⟩ := valuation_score_bounds fin
    have e : defaultFundW = ⟨0.3, 0.4, 0.3⟩ := rfl
    rw [e]
    dsimp only
    unfold calculate_growth_score calculate_quality_score
    exact ⟨round2_nonneg (by nlinarith), round2_le_ten (by nlinarith)⟩

theorem overall_score_bounds (p : Provider) (sym : String) :
    0 ≤ (calculate_overall_score defaultTechW defaultFundW defaultOverallW p sym
          none none).overallScore ∧
      (calculate_overall_score defaultTechW defaultFundW defaultOverallW p sym
          none none).overallScore ≤ 10 := by
  unfold calculate_overall_score
  simp only [Option.getD_none]
  obtain ⟨t0, t10⟩ := technical_score_bounds p sym
  obtain ⟨f0, f10⟩ := fundamental_score_bounds p sym
  have e : defaultOverallW = ⟨0.6, 0.4⟩ := rfl
  rw [e]
  dsimp only
  exact ⟨round2_nonneg (by nlinarith), round2_le_ten (by nlinarith)⟩

theorem signal_score_bounds (signals : List Pattern) :
    0 ≤ calculate_signal_score signals ∧ calculate_signal_score signals ≤ 10 := by
  unfold calculate_signal_score
  by_cases h : signals.isEmpty
  · rw [if_pos h]; norm_num
  · rw [if_neg h]
    exact ⟨round2_nonneg (clamp010_nonneg _), round2_le_ten (clamp010_le_ten _)⟩

/-- C9: under the default configuration every sub-score (trend, momentum,
volume, valuation, growth, quality), every combined technical, fundamental
and overall score, and the per-stock signal score lies in [0,10]. -/
theorem c9_scores_bounded :
    (∀ f : Frame, 0 ≤ calculate_trend_score f ∧ calculate_trend_score f ≤ 10) ∧
    (∀ f : Frame, 0 ≤ calculate_momentum_score f ∧ calculate_momentum_score f ≤ 10) ∧
    (∀ f : Frame, 0 ≤ calculate_volume_score f ∧ calculate_volume_score f ≤ 10) ∧
    (∀ fin : Financial,
      (0 ≤ calculate_valuation_score fin ∧ calculate_valuation_score fin ≤ 10) ∧
      (0 ≤ calculate_growth_score fin ∧ calculate_growth_score fin ≤ 10) ∧
      (0 ≤ calculate_quality_score fin ∧ calculate_quality_score fin ≤ 10)) ∧
    (∀ (p : Provider) (sym : String),
      (0 ≤ (calculate_technical_score defaultTechW p sym).score ∧
        (calculate_technical_score defaultTechW p sym).score ≤ 10) ∧
      (0 ≤ (calculate_fundamental_score defaultFundW p sym).score ∧
        (calculate_fundamental_score defaultFundW p sym).score ≤ 10) ∧
      (0 ≤ (calculate_overall_score defaultTechW defaultFundW defaultOverallW p sym
            none none).overallScore ∧
        (calculate_overall_score defaultTechW defaultFundW defaultOverallW p sym
            none none).overallScore ≤ 10)) ∧
    (∀ signals : List Pattern,
      0 ≤ calculate_signal_score signals ∧ calculate_signal_score signals ≤ 10) :=
  ⟨trend_score_bounds, momentum_score_bounds, volume_score_bounds,
    fun fin => ⟨valuation_score_bounds fin,
      ⟨by norm_num [calculate_growth_score], by norm_num [calculate_growth_score]⟩,
      ⟨by norm_num [calculate_quality_score], by norm_num [calculate_quality_score]⟩⟩,
    fun p sym => ⟨technical_score_bounds p sym, fundamental_score_bounds p sym,
      overall_score_bounds p sym⟩,
    signal_score_bounds⟩

/-- Characterization of sorted(set(xs))[-3:]: strictly ascending, drawn
from xs, of length min 3 (number of distinct values), and every value of
xs left out is strictly below every value kept. -/
theorem top3Ascending_spec (xs : List ℚ) :
    (top3Ascending xs).Sorted (· < ·) ∧
    (∀ a ∈ top3Ascending xs, a ∈ xs) ∧
    (top3Ascending xs).length = min 3 xs.dedup.length ∧
    (∀ a ∈ xs, a ∉ top3Ascending xs → ∀ b ∈ top3Ascending xs, a < b) := by
  unfold top3Ascending
  dsimp only
  set s := List.insertionSort (fun a b => a ≤ b) xs.dedup with hs
  have hperm : s.Perm xs.dedup := List.perm_insertionSort _ _
  have hsorted : s.Sorted (fun a b => a ≤ b) := List.sorted_insertionSort _ _
  have hnodup : s.Nodup := (hperm.nodup_iff).mpr (List.nodup_dedup xs)
  have hlt : s.Sorted (· < ·) :=
    (List.Pairwise.and hsorted hnodup).imp fun h => lt_of_le_of_ne h.1 h.2
  refine ⟨List.Pairwise.sublist (List.drop_sublist _ _) hlt, ?_, ?_, ?_⟩
  · intro a ha
    have hmem : a ∈ s := (List.drop_sublist _ _).subset ha
    exact List.mem_dedup.mp (hperm.mem_iff.mp hmem)
  · rw [List.length_drop, hperm.length_eq]
    omega
  · intro a ha hnot b hb
    have has : a ∈ s := hperm.mem_iff.mpr (List.mem_dedup.mpr ha)
    have hsplit : List.take (s.length - 3) s ++ List.drop (s.length - 3) s = s :=
      List.take_append_drop _ _
    have hpair : List.Pairwise (· < ·)
        (List.take (s.length - 3) s ++ List.drop (s.length - 3) s) := by
      rw [hsplit]; exact hlt
    have hcross := (List.pairwise_append.mp hpair).2.2
    have hatake : a ∈ List.take (s.length - 3) s := by
      rcases List.mem_append.mp (by rw [hsplit]; exact has) with h | h
      · exact h
      · exact absurd h hnot
    exact hcross a hatake b hb

/-- C6: with at least `window` bars, the support levels are exactly the
top three (at most) distinct 2-decimal-rounded low prices of the trailing
window in strictly ascending order, and the resistance levels the same
selection over the high prices; with fewer than `window` bars both lists
are empty. -/
theorem c6_support_resistance (df : Frame) (window : ℕ) (hw : 1 ≤ window) :
    (window ≤ df.rows.length →
      ((get_support_resistance df window).1.Sorted (· < ·) ∧
       (∀ a ∈ (get_support_resistance df window).1,
          a ∈ ((df.rows.drop (df.rows.length - window)).map Row.low).map round2) ∧
       (get_support_resistance df window).1.length =
          min 3 (((df.rows.drop (df.rows.length - window)).map Row.low).map round2).dedup.length ∧
       (∀ a ∈ ((df.rows.drop (df.rows.length - window)).map Row.low).map round2,
          a ∉ (get_support_resistance df window).1 →
          ∀ b ∈ (get_support_resistance df window).1, a < b)) ∧
      ((get_support_resistance df window).2.Sorted (· < ·) ∧
       (∀ a ∈ (get_support_resistance df window).2,
          a ∈ ((df.rows.drop (df.rows.length - window)).map Row.high).map round2) ∧
       (get_support_resistance df window).2.length =
          min 3 (((df.rows.drop (df.rows.length - window)).map Row.high).map round2).dedup.length ∧
       (∀ a ∈ ((df.rows.drop (df.rows.length - window)).map Row.high).map round2,
          a ∉ (get_support_resistance df window).2 →
          ∀ b ∈ (get_support_resistance df window).2, a < b))) ∧
    (df.rows.length < window → get_support_resistance df window = ([], [])) := by
  constructor
  · intro hlen
    have hne : ¬(df.rows.isEmpty = true ∨ df.rows.length < window) := by
      rw [List.isEmpty_iff]
      push_neg
      constructor
      · intro hemp
        rw [hemp] at hlen
        simp at hlen
        omega
      · omega
    have heq : get_support_resistance df window =
        (top3Ascending (((df.rows.drop (df.rows.length - window)).map Row.low).map round2),
         top3Ascending (((df.rows.drop (df.rows.length - window)).map Row.high).map round2)) := by
      unfold get_support_resistance
      rw [if_neg hne]
    rw [heq]
    exact ⟨top3Ascending_spec _, top3Ascending_spec _⟩
  · intro hlt
    unfold get_support_resistance
    rw [if_pos (Or.inr hlt)]

/-- The 20-bar frame with distinct integer lows 1..20 and highs
101..120. -/
def srFrame : Frame :=
  { rows := (List.range 20).map fun i => bar 0 (101 + (i : ℚ)) (1 + (i : ℚ)) 1 1 }

/-- C6 witness: on the 20-bar frame the support levels are the three
highest distinct lows [18, 19, 20] ascending and the resistance levels
[118, 119, 120], and the selection theorem applies. -/
theorem c6_witness :
    (get_support_resistance srFrame 20).1 = [18, 19, 20] ∧
    (get_support_resistance srFrame 20).2 = [118, 119, 120] ∧
    (get_support_resistance srFrame 20).1.Sorted (· < ·) :=
  ⟨by decide, by decide,
    (((c6_support_resistance srFrame 20 (by decide)).1 (by decide)).1).1⟩

/-- A two-row frame carrying exactly one MA pair: the prior bar has
fast/slow values pf/ps, the latest bar lf/ls. -/
def crossFrame (fast slow : ℕ) (pf ps lf ls : ℚ) : Frame :=
  { cols := ["ma_" ++ toString fast, "ma_" ++ toString slow],
    rows := [
      { ma := fun p => if p = fast then some pf else if p = slow then some ps else none },
      { ma := fun p => if p = fast then some lf else if p = slow then some ls else none }] }

/-- The golden-cross event dict for an MA pair. -/
def goldenOf (fast slow : ℕ) : Pattern :=
  ⟨"golden_cross", "MA" ++ toString fast ++ "金叉MA" ++ toString slow, 8⟩

/-- The death-cross event dict for an MA pair. -/
def deathOf (fast slow : ℕ) : Pattern :=
  ⟨"death_cross", "MA" ++ toString fast ++ "死叉MA" ++ toString slow, -8⟩

theorem cross_case (fast slow : ℕ) (pf ps lf ls : ℚ)
    (key : detect_crosses defaultDet (crossFrame fast slow pf ps lf ls) =
      ((if pyLe (some pf) (some ps) ∧ pyGt (some lf) (some ls) then [goldenOf fast slow]
        else if pyGe (some pf) (some ps) ∧ pyLt (some lf) (some ls) then [deathOf fast slow]
        else []) ++ []) ++ [])
    (hgd : goldenOf fast slow ≠ deathOf fast slow) :
    (goldenOf fast slow ∈ detect_crosses defaultDet (crossFrame fast slow pf ps lf ls) ↔
      pf ≤ ps ∧ ls < lf) ∧
    (deathOf fast slow ∈ detect_crosses defaultDet (crossFrame fast slow pf ps lf ls) ↔
      ps ≤ pf ∧ lf < ls) ∧
    ¬(goldenOf fast slow ∈ detect_crosses defaultDet (crossFrame fast slow pf ps lf ls) ∧
      deathOf fast slow ∈ detect_crosses defaultDet (crossFrame fast slow pf ps lf ls)) ∧
    (pf = ps → ls < lf →
      goldenOf fast slow ∈ detect_crosses defaultDet (crossFrame fast slow pf ps lf ls) ∧
      deathOf fast slow ∉ detect_crosses defaultDet (crossFrame fast slow pf ps lf ls)) := by
  rw [key]
  simp only [List.append_nil, pyLe, pyGt, pyGe, pyLt, decide_eq_true_eq]
  have hgold : (goldenOf fast slow ∈
      (if pf ≤ ps ∧ ls < lf then [goldenOf fast slow]
       else if ps ≤ pf ∧ lf < ls then [deathOf fast slow] else [])) ↔ pf ≤ ps ∧ ls < lf := by
    split_ifs with h1 h2
    · simp [h1]
    · simp [hgd, h1]
    · simp [h1]
  have hdeath : (deathOf fast slow ∈
      (if pf ≤ ps ∧ ls < lf then [goldenOf fast slow]
       else if ps ≤ pf ∧ lf < ls then [deathOf fast slow] else [])) ↔ ps ≤ pf ∧ lf < ls := by
    split_ifs with h1 h2
    · constructor
      · intro hmem
        rw [List.mem_singleton] at hmem
        exact absurd hmem (Ne.symm hgd)
      · intro hc
        exact absurd hc.2 (not_lt.mpr (le_of_lt h1.2))
    · simp [h2]
    · simp [h2]
  refine ⟨hgold, hdeath, ?_, ?_⟩
  · intro ⟨hg, hd⟩
    have h1 := hgold.mp hg
    have h2 := hdeath.mp hd
    exact absurd h1.2 (not_lt.mpr (le_of_lt h2.2))
  · intro heq hlt
    exact ⟨hgold.mpr ⟨le_of_eq heq, hlt⟩,
      fun hd => absurd ((hdeath.mp hd)).2 (not_lt.mpr (le_of_lt hlt))⟩

/-- C8: for each adjacent pair of the default MA periods, the golden-cross
event (strength +8) is in the detected patterns exactly when the fast MA
was at most the slow MA on the prior bar and strictly above it on the
latest bar, the death-cross event (-8) exactly on the mirrored condition,
never both at once; in particular equal MAs on the prior bar followed by
fast above slow produces the golden cross and no death cross. -/
theorem c8_ma_crosses :
    ∀ pr ∈ ([(5, 10), (10, 20), (20, 60)] : List (ℕ × ℕ)), ∀ pf ps lf ls : ℚ,
      (goldenOf pr.1 pr.2 ∈ detect_crosses defaultDet (crossFrame pr.1 pr.2 pf ps lf ls) ↔
        pf ≤ ps ∧ ls < lf) ∧
      (deathOf pr.1 pr.2 ∈ detect_crosses defaultDet (crossFrame pr.1 pr.2 pf ps lf ls) ↔
        ps ≤ pf ∧ lf < ls) ∧
      ¬(goldenOf pr.1 pr.2 ∈ detect_crosses defaultDet (crossFrame pr.1 pr.2 pf ps lf ls) ∧
        deathOf pr.1 pr.2 ∈ detect_crosses defaultDet (crossFrame pr.1 pr.2 pf ps lf ls)) ∧
      (pf = ps → ls < lf →
        goldenOf pr.1 pr.2 ∈ detect_crosses defaultDet (crossFrame pr.1 pr.2 pf ps lf ls) ∧
        deathOf pr.1 pr.2 ∉ detect_crosses defaultDet (crossFrame pr.1 pr.2 pf ps lf ls)) := by
  intro pr hpr pf ps lf ls
  simp only [List.mem_cons, List.not_mem_nil, or_false] at hpr
  rcases hpr with h | h | h
  · subst h; exact cross_case 5 10 pf ps lf ls rfl (by decide)
  · subst h; exact cross_case 10 20 pf ps lf ls rfl (by decide)
  · subst h; exact cross_case 20 60 pf ps lf ls rfl (by decide)

/-- C8 witness: the (5,10) pair at equal prior MAs 3,3 and latest 4,3
fires the golden cross and no death cross. -/
theorem c8_witness :
    goldenOf 5 10 ∈ detect_crosses defaultDet (crossFrame 5 10 3 3 4 3) ∧
    deathOf 5 10 ∉ detect_crosses defaultDet (crossFrame 5 10 3 3 4 3) :=
  ((c8_ma_crosses (5, 10) (by decide) 3 3 4 3).2.2.2) rfl (by norm_num)

/-- The non-error records of an analyze-result list, in order. -/
def keptOf (rs : List AnalyzeOut) : List StockRec :=
  rs.filterMap fun r => match r with
    | .record x => some x
    | .errDict _ _ => none

/-- Whether a symbol's analysis produced the error dict. -/
def erredSymbol (ta : TA) (dc : DetCfg) (gc : GenCfg) (p : Provider) (s : String) : Bool :=
  match analyze_stock ta dc gc p s with
  | .ok (.errDict _ _) => true
  | _ => false

/-- The signal record a symbol's analysis produced, if any. -/
def recordOfSymbol (ta : TA) (dc : DetCfg) (gc : GenCfg) (p : Provider) (s : String) :
    Option StockRec :=
  match analyze_stock ta dc gc p s with
  | .ok (.record r) => some r
  | _ => none

theorem bucketize_spec (rs : List AnalyzeOut) :
    ((bucketize rs).1.length + (bucketize rs).2.1.length + (bucketize rs).2.2.length
      = (keptOf rs).length) ∧
    ((bucketize rs).1 ++ (bucketize rs).2.1 ++ (bucketize rs).2.2).Perm (keptOf rs) ∧
    (∀ r ∈ (bucketize rs).1, r.recommendation = "buy") ∧
    (∀ r ∈ (bucketize rs).2.1, r.recommendation = "hold") ∧
    (∀ r ∈ (bucketize rs).2.2, r.recommendation ≠ "buy" ∧ r.recommendation ≠ "hold") := by
  induction rs with
  | nil => simp [bucketize, keptOf]
  | cons head tail ih =>
    obtain ⟨ih1, ih2, ih3, ih4, ih5⟩ := ih
    cases head with
    | errDict s m =>
      have hbz : bucketize (.errDict s m :: tail) = bucketize tail := rfl
      have hk : keptOf (.errDict s m :: tail) = keptOf tail := by
        simp [keptOf, List.filterMap_cons]
      rw [hbz, hk]
      exact ⟨ih1, ih2, ih3, ih4, ih5⟩
    | record r =>
      have hk : keptOf (.record r :: tail) = r :: keptOf tail := by
        simp [keptOf, List.filterMap_cons]
      by_cases hb : r.recommendation = "buy"
      · have hbz : bucketize (.record r :: tail) =
            (r :: (bucketize tail).1, (bucketize tail).2.1, (bucketize tail).2.2) := by
          conv_lhs => rw [bucketize]
          rw [if_pos hb]
        rw [hbz, hk]
        refine ⟨?_, ?_, ?_, ih4, ih5⟩
        · simp only [List.length_cons]
          omega
        · exact ih2.cons r
        · intro x hx
          rcases List.mem_cons.mp hx with hx | hx
          · rw [hx]; exact hb
          · exact ih3 x hx
      · by_cases hh : r.recommendation = "hold"
        · have hbz : bucketize (.record r :: tail) =
              ((bucketize tail).1, r :: (bucketize tail).2.1, (bucketize tail).2.2) := by
            conv_lhs => rw [bucketize]
            rw [if_neg hb, if_pos hh]
          rw [hbz, hk]
          refine ⟨?_, ?_, ih3, ?_, ih5⟩
          · simp only [List.length_cons]
            omega
          · have hshape : (bucketize tail).1 ++ (r :: (bucketize tail).2.1) ++
                (bucketize tail).2.2 =
                (bucketize tail).1 ++ r :: ((bucketize tail).2.1 ++ (bucketize tail).2.2) := by
              simp [List.append_assoc]
            rw [hshape]
            refine List.perm_middle.trans ?_
            refine List.Perm.cons r ?_
            rw [← List.append_assoc]
            exact ih2
          · intro x hx
            rcases List.mem_cons.mp hx with hx | hx
            · rw [hx]; exact hh
            · exact ih4 x hx
        · have hbz : bucketize (.record r :: tail) =
              ((bucketize tail).1, (bucketize tail).2.1, r :: (bucketize tail).2.2) := by
            conv_lhs => rw [bucketize]
            rw [if_neg hb, if_neg hh]
          rw [hbz, hk]
          refine ⟨?_, ?_, ih3, ih4, ?_⟩
          · simp only [List.length_cons]
            omega
          · refine List.perm_middle.trans ?_
            exact List.Perm.cons r ih2
          · intro x hx
            rcases List.mem_cons.mp hx with hx | hx
            · rw [hx]; exact ⟨hb, hh⟩
            · exact ih5 x hx

theorem analyze_all_ok (ta : TA) (dc : DetCfg) (gc : GenCfg) (p : Provider) :
    ∀ (symbols : List String) (rs : List AnalyzeOut),
      analyze_all ta dc gc p symbols = .ok rs →
      ((keptOf rs).length + symbols.countP (fun s => erredSymbol ta dc gc p s)
        = symbols.length) ∧
      keptOf rs = symbols.filterMap (recordOfSymbol ta dc gc p) ∧
      (∀ r ∈ keptOf rs, ∃ s ∈ symbols, analyze_stock ta dc gc p s = .ok (.record r)) := by
  intro symbols
  induction symbols with
  | nil =>
    intro rs h
    unfold analyze_all at h
    cases h
    simp [keptOf]
  | cons s rest ih =>
    intro rs h
    unfold analyze_all at h
    cases ha : analyze_stock ta dc gc p s with
    | error e => rw [ha] at h; simp at h
    | ok r =>
      rw [ha] at h
      cases hrest : analyze_all ta dc gc p rest with
      | error e => rw [hrest] at h; simp at h
      | ok rs' =>
        rw [hrest] at h
        injection h with h
        subst h
        obtain ⟨ih1, ih2, ih3⟩ := ih rs' hrest
        cases r with
        | errDict s2 m =>
          have he : erredSymbol ta dc gc p s = true := by
            unfold erredSymbol; rw [ha]
          have hro : recordOfSymbol ta dc gc p s = none := by
            unfold recordOfSymbol; rw [ha]
          have hk : keptOf (.errDict s2 m :: rs') = keptOf rs' := by
            simp [keptOf, List.filterMap_cons]
          refine ⟨?_, ?_, ?_⟩
          · rw [hk, List.countP_cons_of_pos _ _ (by exact he)]
            simp only [List.length_cons]
            omega
          · rw [hk, List.filterMap_cons, hro, ih2]
          · intro x hx
            rw [hk] at hx
            obtain ⟨s', hs', he'⟩ := ih3 x hx
            exact ⟨s', List.mem_cons_of_mem _ hs', he'⟩
        | record x =>
          have he : erredSymbol ta dc gc p s = false := by
            unfold erredSymbol; rw [ha]
          have hro : recordOfSymbol ta dc gc p s = some x := by
            unfold recordOfSymbol; rw [ha]
          have hk : keptOf (.record x :: rs') = x :: keptOf rs' := by
            simp [keptOf, List.filterMap_cons]
          refine ⟨?_, ?_, ?_⟩
          · rw [hk, List.countP_cons_of_neg _ _ (by simp [he])]
            simp only [List.length_cons]
            omega
          · rw [hk, List.filterMap_cons, hro, ih2]
          · intro y hy
            rw [hk] at hy
            rcases List.mem_cons.mp hy with hy | hy
            · exact ⟨s, List.mem_cons_self s rest, by rw [hy]; exact ha⟩
            · obtain ⟨s', hs', he'⟩ := ih3 y hy
              exact ⟨s', List.mem_cons_of_mem _ hs', he'⟩

theorem analyze_record_action (ta : TA) (dc : DetCfg) (gc : GenCfg) (p : Provider)
    (s : String) (r : StockRec) (h : analyze_stock ta dc gc p s = .ok (.record r)) :
    r.recommendation = "buy" ∨ r.recommendation = "sell" ∨ r.recommendation = "hold" := by
  unfold analyze_stock at h
  cases hsc : scan_stock ta dc p s with
  | err s2 m => rw [hsc] at h; simp at h
  | ok sc =>
    rw [hsc] at h
    dsimp only at h
    cases hkl : calculate_key_levels sc.price sc.supportLevels sc.resistanceLevels with
    | error e => rw [hkl] at h; simp at h
    | ok kl =>
      rw [hkl] at h
      injection h with h
      injection h with h
      rw [← h]
      dsimp only
      rw [rec_action_eq]
      split_ifs <;> simp

/-- C3: whenever generate_group_signals returns a group result for N input
symbols of which M produced the error dict, the bucket sizes sum to N - M,
the multiset of bucketed records is exactly the multiset of non-error
records (each appears in exactly one bucket), each record sits in the
bucket named by its recommendation, the buy bucket is sorted descending by
overall score and the sell bucket ascending. -/
theorem c3_group_partition (ta : TA) (dc : DetCfg) (gc : GenCfg) (p : Provider)
    (symbols : List String) (g : GroupResult)
    (h : generate_group_signals ta dc gc p symbols = .ok g) :
    (g.buy.length + g.hold.length + g.sell.length =
      symbols.length - symbols.countP (fun s => erredSymbol ta dc gc p s)) ∧
    (g.buy ++ g.hold ++ g.sell).Perm (symbols.filterMap (recordOfSymbol ta dc gc p)) ∧
    (∀ r ∈ g.buy, r.recommendation = "buy") ∧
    (∀ r ∈ g.hold, r.recommendation = "hold") ∧
    (∀ r ∈ g.sell, r.recommendation = "sell") ∧
    g.buy.Pairwise (fun a b => b.overallScore ≤ a.overallScore) ∧
    g.sell.Pairwise (fun a b => a.overallScore ≤ b.overallScore) := by
  unfold generate_group_signals at h
  cases hall : analyze_all ta dc gc p symbols with
  | error e => rw [hall] at h; simp at h
  | ok results =>
    rw [hall] at h
    dsimp only at h
    injection h with h
    subst h
    dsimp only
    obtain ⟨hb1, hb2, hb3, hb4, hb5⟩ := bucketize_spec results
    obtain ⟨ha1, ha2, ha3⟩ := analyze_all_ok ta dc gc p symbols results hall
    have permB : (List.insertionSort (fun a b => b.overallScore ≤ a.overallScore)
        (bucketize results).1).Perm (bucketize results).1 := List.perm_insertionSort _ _
    have permS : (List.insertionSort (fun a b => a.overallScore ≤ b.overallScore)
        (bucketize results).2.2).Perm (bucketize results).2.2 := List.perm_insertionSort _ _
    refine ⟨?_, ?_, ?_, ?_, ?_, ?_, ?_⟩
    · rw [permB.length_eq, permS.length_eq]
      omega
    · rw [← ha2]
      exact ((permB.append (List.Perm.refl _)).append permS).trans hb2
    · intro r hr
      exact hb3 r (permB.mem_iff.mp hr)
    · exact hb4
    · intro r hr
      have hmem : r ∈ (bucketize results).2.2 := permS.mem_iff.mp hr
      obtain ⟨hnb, hnh⟩ := hb5 r hmem
      have hkept : r ∈ keptOf results :=
        hb2.mem_iff.mp (List.mem_append.mpr (Or.inr hmem))
      obtain ⟨s, _, hs⟩ := ha3 r hkept
      rcases analyze_record_action ta dc gc p s r hs with h1 | h1 | h1
      · exact absurd h1 hnb
      · exact h1
      · exact absurd h1 hnh
    · haveI : IsTotal StockRec (fun a b => b.overallScore ≤ a.overallScore) :=
        ⟨fun a b => le_total _ _⟩
      haveI : IsTrans StockRec (fun a b => b.overallScore ≤ a.overallScore) :=
        ⟨fun _ _ _ h1 h2 => le_trans h2 h1⟩
      exact List.sorted_insertionSort _ _
    · haveI : IsTotal StockRec (fun a b => a.overallScore ≤ b.overallScore) :=
        ⟨fun a b => le_total _ _⟩
      haveI : IsTrans StockRec (fun a b => a.overallScore ≤ b.overallScore) :=
        ⟨fun _ _ _ h1 h2 => le_trans h1 h2⟩
      exact List.sorted_insertionSort _ _

/-- C3 witness: the two-symbol batch where E errors and B survives has
bucket sizes summing to 2 - 1. -/
theorem c3_witness :
    groupOnlyB.buy.length + groupOnlyB.hold.length + groupOnlyB.sell.length =
      (["E", "B"] : List String).length -
        (["E", "B"] : List String).countP
          (fun s => erredSymbol taNone defaultDet defaultGen provMix s) :=
  (c3_group_partition taNone defaultDet defaultGen provMix ["E", "B"] groupOnlyB rfl).1
